import Mathlib

/-!
Shallow embedding of the Transition Projection Engine of
`api-simulacao-reforma` (files `src/services/transicao_service.py` and
`src/services/projecao_rtc_service.py`).

Python floats are modelled as rationals (ℚ); `round(x, 2)` and `round(x, 3)`
become `round2` / `round3` below.  Dictionary fields accessed with
`d.get(key, default)` are modelled as `Option` fields read with `Option.getD`.
-/

namespace Reforma

/-- `round(x, 2)` of the source: round to 2 decimal places (= `round (q*100) / 100`;
ties are broken upward here, a tie-breaking choice none of the verified claims
depends on). -/
def round2 (q : ℚ) : ℚ := (⌊q * 100 + 1/2⌋ : ℚ) / 100

/-- `round(x, 3)` of the source: round to 3 decimal places. -/
def round3 (q : ℚ) : ℚ := (⌊q * 1000 + 1/2⌋ : ℚ) / 1000

/-- One entry of `IS_CATEGORIES` (transicao_service.py lines 21-30). -/
structure ISCategory where
  prefixes : List String
  rate : ℚ
  desc : String
deriving Repr, DecidableEq

/-- The selective-tax ("Imposto Seletivo") category list,
transicao_service.py lines 21-30, in its source order. -/
def IS_CATEGORIES : List ISCategory := [
  ⟨["2401", "2402", "2403"], 1, "Produtos fumígenos (tabaco/cigarro)"⟩,
  ⟨["2203", "2204", "2205", "2206", "2207", "2208"], 1/5, "Bebidas alcoólicas"⟩,
  ⟨["2202"], 1/5, "Bebidas açucaradas / energéticas"⟩,
  ⟨["8701", "8702", "8703", "8704", "8705", "8706", "8707", "8708", "8711"], 7/100, "Veículos automotores"⟩,
  ⟨["8901", "8902", "8903", "8904", "8905", "8906", "8907", "8908"], 3/100, "Embarcações"⟩,
  ⟨["8801", "8802", "8803", "8804", "8805"], 3/100, "Aeronaves"⟩,
  ⟨["9301", "9302", "9303", "9304", "9305", "9306"], 1/4, "Armas e munições"⟩,
  ⟨["2709", "2710", "2711"], 1/100, "Minerais / combustíveis fósseis"⟩]

/-- One entry of `TRANSITION_YEARS` (transicao_service.py lines 38-111). -/
structure YearCfg where
  ano : ℕ
  fase : String
  descricao : String
  cbs : ℚ
  ibs : ℚ
  aplica_is : Bool
  icms_fator : ℚ
  pisCofins_fator : ℚ
  ipi_fator : ℚ
  fonte : String
deriving Repr, DecidableEq

/-- The static year schedule table, transicao_service.py lines 38-111. -/
def TRANSITION_YEARS : List YearCfg := [
  ⟨2026, "Fase Piloto", "IVA simbólico (1%) + ICMS + PIS/COFINS + IPI plenos",
    9/1000, 1/1000, false, 1, 1, 1, "api"⟩,
  ⟨2027, "Transição Inicial", "CBS definitiva + ICMS pleno — PIS/COFINS/IPI extintos",
    88/1000, 1/1000, true, 1, 0, 0, "simulado"⟩,
  ⟨2028, "Transição Inicial", "CBS definitiva + ICMS pleno — PIS/COFINS/IPI extintos",
    88/1000, 2/1000, true, 1, 0, 0, "simulado"⟩,
  ⟨2029, "Substituição Gradual (10%)", "IBS 10% da alíquota cheia — ICMS cai para 90%",
    88/1000, 177/10000, true, 9/10, 0, 0, "simulado"⟩,
  ⟨2030, "Substituição Gradual (20%)", "IBS 20% da alíquota cheia — ICMS cai para 80%",
    88/1000, 354/10000, true, 8/10, 0, 0, "simulado"⟩,
  ⟨2031, "Substituição Gradual (30%)", "IBS 30% da alíquota cheia — ICMS cai para 70%",
    88/1000, 531/10000, true, 7/10, 0, 0, "simulado"⟩,
  ⟨2032, "Substituição Gradual (40%)", "IBS 40% da alíquota cheia — ICMS cai para 60%",
    88/1000, 708/10000, true, 6/10, 0, 0, "simulado"⟩,
  ⟨2033, "Alíquota Cheia", "Plena vigência do IVA Dual — ICMS e ISS extintos",
    88/1000, 177/1000, true, 0, 0, 0, "simulado"⟩]

/-- The classifier's matched-category record `{"rate": …, "desc": …}`. -/
structure ISInfo where
  rate : ℚ
  desc : String
deriving Repr, DecidableEq

/-- `(ncm or "").replace(".", "")` of `detectar_is`: remove every `.`
from the commodity code, as a character list. -/
def stripDots (s : String) : List Char := s.data.filter (fun c => c ≠ '.')

/-- `(ncm or "").replace(".", "")[:4]`: the first 4 characters of the
dot-stripped commodity code. -/
def prefix4 (s : String) : List Char := (stripDots s).take 4

/-- `detectar_is` (transicao_service.py lines 114-119): first category whose
prefix list contains the 4-character key, else `none`. -/
def detectar_is (ncm : String) : Option ISInfo :=
  (IS_CATEGORIES.find? (fun cat => cat.prefixes.any (fun p => p.data == prefix4 ncm))).map
    (fun cat => ⟨cat.rate, cat.desc⟩)

/-- One input invoice line as the services receive it (a dict dumped from
`ItemInput` with `exclude_none=True`): `numero`, `ncm` and `baseCalculo` are
required by the schema; `descricao` is optional and absent when `None`. -/
structure InvoiceLine where
  numero : ℕ
  ncm : String
  descricao : Option String
  baseCalculo : ℚ
deriving Repr, DecidableEq

/-- One external per-line result object.  Each field embeds one leaf of the
nested JSON read by the extractors (`obj["tribCalc"]["IBSCBS"]["gIBSCBS"]…`);
a `none` models the leaf (or any dict on its path) being absent, in which
case the source's `get(…, 0)` / `get(…, {})` chain yields the default 0. -/
structure ExtObj where
  nObj : Option ℕ
  vBC : Option ℚ
  vIBS : Option ℚ
  vCBS : Option ℚ
  pCBS : Option ℚ
  pIBSUF : Option ℚ
  pIBSMun : Option ℚ
  vIS : Option ℚ
deriving Repr, DecidableEq

/-- The external API response consumed by Mode A / Mode B:
`resultado_api.get("objetos", [])`. -/
structure ApiResult where
  objetos : Option (List ExtObj)
deriving Repr, DecidableEq

/-- The `tributos_atuais` dict (legacy-tax baseline); every key read with
`ta.get(key, 0)`. -/
structure TributosAtuais where
  vICMS : Option ℚ
  vST : Option ℚ
  vISS : Option ℚ
  vPIS : Option ℚ
  vCOFINS : Option ℚ
  vIPI : Option ℚ
deriving Repr, DecidableEq

/-- The all-absent baseline: `tributos_atuais or {}` when the argument is
`None`. -/
def emptyTA : TributosAtuais := ⟨none, none, none, none, none, none⟩

/-- `float(ta.get("vICMS", 0)) + float(ta.get("vST", 0)) + float(ta.get("vISS", 0))`
(transicao_service.py line 169). -/
def v_icms (ta : TributosAtuais) : ℚ := ta.vICMS.getD 0 + ta.vST.getD 0 + ta.vISS.getD 0

/-- `float(ta.get("vPIS", 0)) + float(ta.get("vCOFINS", 0))` (line 170). -/
def v_pisCofins (ta : TributosAtuais) : ℚ := ta.vPIS.getD 0 + ta.vCOFINS.getD 0

/-- `float(ta.get("vIPI", 0))` (line 171). -/
def v_ipi (ta : TributosAtuais) : ℚ := ta.vIPI.getD 0

/-- One per-line result dict as both services build it.  The dict key `"is"`
is embedded as the field `vis` (Lean keyword clash). -/
structure LineResult where
  numero : ℕ
  ncm : String
  descricao : String
  baseCalculo : ℚ
  cbs : ℚ
  ibs : ℚ
  vis : ℚ
  isInfo : Option ISInfo
  aliqCbs : ℚ
  aliqIbs : ℚ
  total : ℚ
deriving Repr, DecidableEq

/-- The `"total"` sub-dict of one year entry. -/
structure YearTotals where
  cbs : ℚ
  ibs : ℚ
  iva : ℚ
  vis : ℚ
  icms : ℚ
  pisCofins : ℚ
  ipi : ℚ
  tributosAnteriores : ℚ
  geral : ℚ
deriving Repr, DecidableEq

/-- One entry of the returned year list. -/
structure YearEntry where
  ano : ℕ
  fase : String
  descricao : String
  aliqCbs : ℚ
  aliqIbs : ℚ
  aplicaIS : Bool
  fonte : String
  itens : List LineResult
  total : YearTotals
deriving Repr, DecidableEq

/-- `_extrair_item_2026` (transicao_service.py lines 122-153): reshape one
external object for the live year, enriching `ncm`/`descricao` from the first
input line whose `numero` equals `nObj`. -/
def extrair_item_2026 (obj : ExtObj) (itens_input : List InvoiceLine) : LineResult :=
  let nobj := obj.nObj.getD 1
  let vBC := obj.vBC.getD 0
  let vIBS := obj.vIBS.getD 0
  let vCBS := obj.vCBS.getD 0
  let pCBS := obj.pCBS.getD 0
  let pIBSUF := obj.pIBSUF.getD 0
  let pIBSMun := obj.pIBSMun.getD 0
  let vIS := obj.vIS.getD 0
  let inp := itens_input.find? (fun i => i.numero == nobj)
  { numero := nobj
    ncm := (inp.map (fun i => i.ncm)).getD ""
    descricao := ((inp.bind (fun i => i.descricao)).getD ("Item " ++ toString nobj))
    baseCalculo := vBC
    cbs := round2 vCBS
    ibs := round2 vIBS
    vis := round2 vIS
    isInfo := none
    aliqCbs := pCBS
    aliqIbs := pIBSUF + pIBSMun
    total := round2 (vCBS + vIBS + vIS) }

/-- The loop body of `calcular_transicao` for a projected year
(transicao_service.py lines 187-205): one `LineResult` from one input line
and the year's schedule entry. -/
def calcular_item_projetado (cfg : YearCfg) (inp : InvoiceLine) : LineResult :=
  let bc := inp.baseCalculo
  let vCBS := round2 (bc * cfg.cbs)
  let vIBS := round2 (bc * cfg.ibs)
  let is_info := if cfg.aplica_is then detectar_is inp.ncm else none
  let vIS := match is_info with
    | some info => round2 (bc * info.rate)
    | none => 0
  { numero := inp.numero
    ncm := inp.ncm
    descricao := inp.descricao.getD ("Item " ++ toString inp.numero)
    baseCalculo := bc
    cbs := vCBS
    ibs := vIBS
    vis := vIS
    isInfo := is_info
    aliqCbs := cfg.cbs * 100
    aliqIbs := cfg.ibs * 100
    total := round2 (vCBS + vIBS + vIS) }

/-- Legacy residuals of one year (transicao_service.py lines 208-211, and
identically projecao_rtc_service.py lines 143-146):
`(icms_residual, pisCofins_residual, ipi_residual, tributos_anteriores)`. -/
def legacy_residuals (ta : TributosAtuais) (cfg : YearCfg) : ℚ × ℚ × ℚ × ℚ :=
  let icms_residual := round2 (v_icms ta * cfg.icms_fator)
  let pisCofins_residual := round2 (v_pisCofins ta * cfg.pisCofins_fator)
  let ipi_residual := round2 (v_ipi ta * cfg.ipi_fator)
  (icms_residual, pisCofins_residual, ipi_residual,
    round2 (icms_residual + pisCofins_residual + ipi_residual))

/-- Year totals from the per-line results and the legacy residuals
(transicao_service.py lines 214-218 and 229-239). -/
def year_totals (itens_ano : List LineResult) (ta : TributosAtuais) (cfg : YearCfg) :
    YearTotals :=
  let r := legacy_residuals ta cfg
  let total_cbs := round2 ((itens_ano.map (fun i => i.cbs)).sum)
  let total_ibs := round2 ((itens_ano.map (fun i => i.ibs)).sum)
  let total_is := round2 ((itens_ano.map (fun i => i.vis)).sum)
  let total_iva := round2 (total_cbs + total_ibs + total_is)
  { cbs := total_cbs
    ibs := total_ibs
    iva := total_iva
    vis := total_is
    icms := r.1
    pisCofins := r.2.1
    ipi := r.2.2.1
    tributosAnteriores := r.2.2.2
    geral := round2 (total_iva + r.2.2.2) }

/-- One year entry of Mode A (`calcular_transicao` loop body, lines 176-240):
the live year 2026 uses the external objects, every other year is projected
from the schedule rates. -/
def year_entry_transicao (resultado_api : ApiResult) (itens_input : List InvoiceLine)
    (ta : TributosAtuais) (cfg : YearCfg) : YearEntry :=
  let objetos := resultado_api.objetos.getD []
  let itens_ano :=
    if cfg.ano = 2026 then
      objetos.map (fun obj => extrair_item_2026 obj itens_input)
    else
      itens_input.map (fun inp => calcular_item_projetado cfg inp)
  { ano := cfg.ano
    fase := cfg.fase
    descricao := cfg.descricao
    aliqCbs := cfg.cbs * 100
    aliqIbs := cfg.ibs * 100
    aplicaIS := cfg.aplica_is
    fonte := cfg.fonte
    itens := itens_ano
    total := year_totals itens_ano ta cfg }

/-- `calcular_transicao` (transicao_service.py lines 156-242), Mode A:
one entry per schedule year, in schedule order. -/
def calcular_transicao (resultado_api : ApiResult) (itens_input : List InvoiceLine)
    (tributos_atuais : Option TributosAtuais) : List YearEntry :=
  let ta := tributos_atuais.getD emptyTA
  TRANSITION_YEARS.map (year_entry_transicao resultado_api itens_input ta)

/-- The dict-comprehension lookup of `_extrair_itens_rtc`
(projecao_rtc_service.py line 55): `{i["numero"]: i for i in itens_input}`
followed by `.get(nobj, {})` — the LAST item with a given `numero` wins. -/
def inp_by_num (itens_input : List InvoiceLine) (nobj : ℕ) : Option InvoiceLine :=
  itens_input.reverse.find? (fun i => i.numero == nobj)

/-- The loop body of `_extrair_itens_rtc` (projecao_rtc_service.py
lines 58-91): reshape one external object, setting `isInfo` from the
classifier only when the external `vIS` is strictly positive. -/
def extrair_item_rtc (itens_input : List InvoiceLine) (obj : ExtObj) : LineResult :=
  let nobj := obj.nObj.getD 1
  let vBC := obj.vBC.getD 0
  let vIBS := obj.vIBS.getD 0
  let vCBS := obj.vCBS.getD 0
  let pCBS := obj.pCBS.getD 0
  let pIBSUF := obj.pIBSUF.getD 0
  let pIBSMun := obj.pIBSMun.getD 0
  let vIS := obj.vIS.getD 0
  let inp := inp_by_num itens_input nobj
  let ncm := (inp.map (fun i => i.ncm)).getD ""
  let is_info := if vIS > 0 then detectar_is ncm else none
  { numero := nobj
    ncm := ncm
    descricao := ((inp.bind (fun i => i.descricao)).getD ("Item " ++ toString nobj))
    baseCalculo := vBC
    cbs := round2 vCBS
    ibs := round2 vIBS
    vis := round2 vIS
    isInfo := is_info
    aliqCbs := pCBS
    aliqIbs := pIBSUF + pIBSMun
    total := round2 (vCBS + vIBS + vIS) }

/-- `_extrair_itens_rtc` (projecao_rtc_service.py lines 50-92). -/
def extrair_itens_rtc (objetos : List ExtObj) (itens_input : List InvoiceLine) :
    List LineResult :=
  objetos.map (extrair_item_rtc itens_input)

/-- One year entry of Mode B (`calcular_projecao_rtc` loop body,
projecao_rtc_service.py lines 139-178): effective rates are back-computed
from the summed amounts over the summed (unrounded) base. -/
def year_entry_rtc (cfg : YearCfg) (resultado : ApiResult)
    (itens_input : List InvoiceLine) (ta : TributosAtuais) : YearEntry :=
  let itens_ano := extrair_itens_rtc (resultado.objetos.getD []) itens_input
  let totals := year_totals itens_ano ta cfg
  let total_bc := (itens_ano.map (fun i => i.baseCalculo)).sum
  let aliq_cbs_ef := if total_bc ≠ 0 then round3 (totals.cbs / total_bc * 100) else round3 0
  let aliq_ibs_ef := if total_bc ≠ 0 then round3 (totals.ibs / total_bc * 100) else round3 0
  { ano := cfg.ano
    fase := cfg.fase
    descricao := cfg.descricao
    aliqCbs := aliq_cbs_ef
    aliqIbs := aliq_ibs_ef
    aplicaIS := cfg.aplica_is
    fonte := "api-rtc"
    itens := itens_ano
    total := totals }

/-- `calcular_projecao_rtc` (projecao_rtc_service.py lines 95-180), Mode B.
The 8 concurrent calls of `asyncio.gather(…, return_exceptions=True)` settle
into a list ordered like `TRANSITION_YEARS`; `outcome cfg = none` models the
call for that year having raised (connection error, timeout or non-2xx), and
such years are skipped. -/
def calcular_projecao_rtc (outcome : YearCfg → Option ApiResult)
    (itens_input : List InvoiceLine) (tributos_atuais : Option TributosAtuais) :
    List YearEntry :=
  let ta := tributos_atuais.getD emptyTA
  TRANSITION_YEARS.filterMap
    (fun cfg => (outcome cfg).map (fun res => year_entry_rtc cfg res itens_input ta))

/-! ### Spec-side definitions used for refinement comparisons -/

/-- The normalization step as the spec words it for the classifier claim:
strip ALL non-alphanumeric separators (the source strips only `.`). -/
def stripNonAlnumSpec (s : String) : List Char := s.data.filter (fun c => c.isAlphanum)

/-- The classifier as the claim words it: normalize by stripping all
non-alphanumeric separators, take the first 4 characters, first-match scan. -/
def detectar_is_specnorm (ncm : String) : Option ISInfo :=
  (IS_CATEGORIES.find? (fun cat =>
      cat.prefixes.any (fun p => p.data == (stripNonAlnumSpec ncm).take 4))).map
    (fun cat => ⟨cat.rate, cat.desc⟩)

/-- First-match scan over the category list, written as the spec describes it
(explicit recursion, first category whose prefix set contains the key). -/
def firstMatchSpec : List ISCategory → List Char → Option ISInfo
  | [], _ => none
  | cat :: rest, key =>
    if key ∈ cat.prefixes.map (fun p => p.data) then some ⟨cat.rate, cat.desc⟩
    else firstMatchSpec rest key

/-! ### Helper lemmas -/

lemma round2_zero : round2 0 = 0 := by
  norm_num [round2]

lemma rtc_map_ano (outcome : YearCfg → Option ApiResult) (itens : List InvoiceLine)
    (ta : TributosAtuais) (l : List YearCfg) :
    ((l.filterMap (fun cfg => (outcome cfg).map
        (fun r => year_entry_rtc cfg r itens ta))).map (fun e => e.ano)) =
      (l.filter (fun cfg => (outcome cfg).isSome)).map (fun c => c.ano) := by
  induction l with
  | nil => rfl
  | cons cfg rest ih =>
    cases h : outcome cfg with
    | none => simp [List.filterMap_cons, List.filter_cons, h, ih]
    | some r =>
      simp only [List.filterMap_cons, List.filter_cons, h, Option.map_some',
        Option.isSome_some, List.map_cons, cond_true, if_true]
      rw [ih]
      rfl

lemma round3_zero : round3 0 = 0 := by
  norm_num [round3]

lemma find?_eq_firstMatchSpec (cats : List ISCategory) (key : List Char) :
    (cats.find? (fun cat => cat.prefixes.any (fun p => p.data == key))).map
      (fun cat => (⟨cat.rate, cat.desc⟩ : ISInfo)) = firstMatchSpec cats key := by
  induction cats with
  | nil => rfl
  | cons cat rest ih =>
    by_cases h : key ∈ cat.prefixes.map (fun p => p.data)
    · have hany : cat.prefixes.any (fun p => p.data == key) = true := by
        simp only [List.any_eq_true, beq_iff_eq]
        obtain ⟨p, hp, hpk⟩ := List.mem_map.mp h
        exact ⟨p, hp, hpk⟩
      rw [List.find?_cons_of_pos rest hany, firstMatchSpec, if_pos h]
      rfl
    · have hany : ¬ ((cat.prefixes.any (fun p => p.data == key)) = true) := by
        simp only [List.any_eq_true, beq_iff_eq, not_exists]
        intro p hp
        exact h (List.mem_map.mpr ⟨p, hp.1, hp.2⟩)
      rw [List.find?_cons_of_neg rest hany, firstMatchSpec, if_neg h, ih]

lemma IS_prefixes_length : ∀ cat ∈ IS_CATEGORIES, ∀ p ∈ cat.prefixes, p.data.length = 4 := by
  decide

lemma detectar_is_of_short (ncm : String) (h : (stripDots ncm).length < 4) :
    detectar_is ncm = none := by
  unfold detectar_is
  have hfind : IS_CATEGORIES.find?
      (fun cat => cat.prefixes.any (fun p => p.data == prefix4 ncm)) = none := by
    rw [List.find?_eq_none]
    intro cat hcat
    simp only [List.any_eq_true, beq_iff_eq, not_exists]
    intro p hp
    have hlen4 : p.data.length = 4 := IS_prefixes_length cat hcat p hp.1
    have hlt : (prefix4 ncm).length < 4 := by
      rw [prefix4, List.length_take]
      omega
    rw [hp.2] at hlen4
    omega
  rw [hfind]
  rfl

/-! ### Claim theorems -/

/-- **C2**: in the static 8-entry year schedule the years are unique and
strictly increasing, each legacy-tax decay factor is non-increasing year over
year, each new-regime nominal rate is non-decreasing, and the selective-tax
flag is false exactly for the 2026 entry. -/
theorem claim_C2 :
    (TRANSITION_YEARS.map (fun c => c.ano)).Nodup ∧
    List.Chain' (fun a b => a < b) (TRANSITION_YEARS.map (fun c => c.ano)) ∧
    List.Chain' (fun a b => b ≤ a) (TRANSITION_YEARS.map (fun c => c.icms_fator)) ∧
    List.Chain' (fun a b => b ≤ a) (TRANSITION_YEARS.map (fun c => c.pisCofins_fator)) ∧
    List.Chain' (fun a b => b ≤ a) (TRANSITION_YEARS.map (fun c => c.ipi_fator)) ∧
    List.Chain' (fun a b => a ≤ b) (TRANSITION_YEARS.map (fun c => c.cbs)) ∧
    List.Chain' (fun a b => a ≤ b) (TRANSITION_YEARS.map (fun c => c.ibs)) ∧
    (TRANSITION_YEARS.filter (fun c => !c.aplica_is)).map (fun c => c.ano) = [2026] ∧
    TRANSITION_YEARS.length = 8 := by
  refine ⟨by decide, ?_, ?_, ?_, ?_, ?_, ?_, by decide, by decide⟩ <;>
    · simp only [TRANSITION_YEARS, List.map, List.chain'_cons, List.chain'_singleton]
      norm_num

/-- **C3 counterexample**: the claim says the classifier strips
non-alphanumeric separators; the source strips only `.`, so on `"24-01"` the
code finds no category while the claim's described normalization matches the
tobacco category. -/
theorem claim_C3_counterexample :
    detectar_is "24-01" = none ∧
    detectar_is_specnorm "24-01" = some ⟨1, "Produtos fumígenos (tabaco/cigarro)"⟩ := by
  constructor <;> rfl

/-- **C3 (amended)**: for every commodity-code string the classifier never
raises (it is total); it strips `.` (dot) characters — not all
non-alphanumeric separators — takes the first 4 characters of the stripped
code, scans the category list in its defined order returning the first
category whose prefix set contains that value, and returns no-category
otherwise, in particular whenever the stripped code has fewer than
4 characters. -/
theorem claim_C3 (ncm : String) :
    detectar_is ncm =
      firstMatchSpec IS_CATEGORIES ((ncm.data.filter (fun c => c ≠ '.')).take 4) ∧
    ((ncm.data.filter (fun c => c ≠ '.')).length < 4 → detectar_is ncm = none) := by
  constructor
  · exact find?_eq_firstMatchSpec IS_CATEGORIES (prefix4 ncm)
  · intro h
    exact detectar_is_of_short ncm h

/-- Witness for C3: a 2-character code yields no category. -/
theorem claim_C3_witness : detectar_is "ab" = none :=
  (claim_C3 "ab").2 (by decide)

/-- The 2027 schedule entry (used to instantiate witnesses). -/
def cfg2027 : YearCfg :=
  ⟨2027, "Transição Inicial", "CBS definitiva + ICMS pleno — PIS/COFINS/IPI extintos",
    88/1000, 1/1000, true, 1, 0, 0, "simulado"⟩

/-- The scenario-1 invoice line: commodity code 2401, base 1000. -/
def linha2401 : InvoiceLine := ⟨1, "2401", some "Cigarros", 1000⟩

/-- **C1**: for every invoice line and every schedule year after 2026, the
projected path of Mode A produces a `LineResult` with CBS and IBS equal to the
2-decimal rounding of base × nominal rate, excise equal to the 2-decimal
rounding of base × matched-category rate when the year's selective-tax flag is
on and the classifier matches (else 0), total equal to the 2-decimal rounding
of the sum of the already-rounded components, and effective-rate fields equal
to the nominal schedule rates × 100; in particular one line with code "2401"
and base 1000 in 2027 yields excise 1000.00, CBS 88.00, IBS 1.00,
total 1089.00. -/
theorem claim_C1 (res : ApiResult) (itens : List InvoiceLine) (ta : TributosAtuais)
    (cfg : YearCfg) (inp : InvoiceLine)
    (_hc : cfg ∈ TRANSITION_YEARS) (h26 : 2026 < cfg.ano) :
    ((year_entry_transicao res itens ta cfg).itens =
        itens.map (calcular_item_projetado cfg)) ∧
    (year_entry_transicao res itens ta cfg).aliqCbs = cfg.cbs * 100 ∧
    (year_entry_transicao res itens ta cfg).aliqIbs = cfg.ibs * 100 ∧
    (calcular_item_projetado cfg inp).cbs = round2 (inp.baseCalculo * cfg.cbs) ∧
    (calcular_item_projetado cfg inp).ibs = round2 (inp.baseCalculo * cfg.ibs) ∧
    (calcular_item_projetado cfg inp).vis =
      (if cfg.aplica_is then
        ((detectar_is inp.ncm).map (fun info => round2 (inp.baseCalculo * info.rate))).getD 0
       else 0) ∧
    (calcular_item_projetado cfg inp).total =
      round2 ((calcular_item_projetado cfg inp).cbs + (calcular_item_projetado cfg inp).ibs +
        (calcular_item_projetado cfg inp).vis) ∧
    (calcular_item_projetado cfg inp).aliqCbs = cfg.cbs * 100 ∧
    (calcular_item_projetado cfg inp).aliqIbs = cfg.ibs * 100 ∧
    ((calcular_transicao ⟨some []⟩ [linha2401] none)[1]?).map
        (fun e => (e.ano, e.itens.map (fun r => (r.vis, r.cbs, r.ibs, r.total)))) =
      some (2027, [(1000, 88, 1, 1089)]) := by
  have hne : ¬ (cfg.ano = 2026) := by omega
  refine ⟨?_, rfl, rfl, rfl, rfl, ?_, rfl, rfl, rfl, ?_⟩
  · simp [year_entry_transicao, hne]
  · cases hcfg : cfg.aplica_is <;> cases hdet : detectar_is inp.ncm <;>
      simp [calcular_item_projetado, hcfg, hdet]
  · have hdet : detectar_is "2401" = some ⟨1, "Produtos fumígenos (tabaco/cigarro)"⟩ := rfl
    simp only [calcular_transicao, TRANSITION_YEARS, List.map, Option.getD, emptyTA,
      year_entry_transicao, calcular_item_projetado, linha2401, hdet]
    norm_num [round2]

/-- Witness for C1: the projected CBS of the scenario-1 line in 2027 equals
the 2-decimal rounding of 1000 × 0.088. -/
theorem claim_C1_witness :
    (calcular_item_projetado cfg2027 linha2401).cbs =
      round2 (linha2401.baseCalculo * cfg2027.cbs) :=
  (claim_C1 ⟨some []⟩ [linha2401] emptyTA cfg2027 linha2401
    (by rw [TRANSITION_YEARS, cfg2027]; exact List.mem_cons_of_mem _ (List.mem_cons_self _ _))
    (by decide)).2.2.2.1

/-- The scenario-4 legacy baseline: icms 500, pis 100, cofins 50, ipi 0. -/
def taCenario4 : TributosAtuais := ⟨some 500, none, none, some 100, some 50, some 0⟩

/-- The 2029 schedule entry (used to instantiate witnesses). -/
def cfg2029 : YearCfg :=
  ⟨2029, "Substituição Gradual (10%)", "IBS 10% da alíquota cheia — ICMS cai para 90%",
    88/1000, 177/10000, true, 9/10, 0, 0, "simulado"⟩

/-- **C4**: for every legacy baseline (fields defaulting to 0 when absent) and
every schedule year, the entry's legacy residuals are the 2-decimal roundings
of (vICMS+vST+vISS) × icms factor, (vPIS+vCOFINS) × pisCofins factor and
vIPI × ipi factor, and the combined legacy total is the 2-decimal rounding of
the sum of the three residuals; an absent baseline yields zero residuals for
every year, and the scenario-4 baseline in 2029 yields icms 450.00,
pisCofins 0.00, ipi 0.00, legacy total 450.00. -/
theorem claim_C4 (res : ApiResult) (itens : List InvoiceLine) (ta : TributosAtuais)
    (cfg : YearCfg) (_hc : cfg ∈ TRANSITION_YEARS) :
    ((year_entry_transicao res itens ta cfg).total.icms =
        round2 ((ta.vICMS.getD 0 + ta.vST.getD 0 + ta.vISS.getD 0) * cfg.icms_fator) ∧
      (year_entry_transicao res itens ta cfg).total.pisCofins =
        round2 ((ta.vPIS.getD 0 + ta.vCOFINS.getD 0) * cfg.pisCofins_fator) ∧
      (year_entry_transicao res itens ta cfg).total.ipi =
        round2 (ta.vIPI.getD 0 * cfg.ipi_fator) ∧
      (year_entry_transicao res itens ta cfg).total.tributosAnteriores =
        round2 ((year_entry_transicao res itens ta cfg).total.icms +
          (year_entry_transicao res itens ta cfg).total.pisCofins +
          (year_entry_transicao res itens ta cfg).total.ipi)) ∧
    calcular_transicao res itens (some ta) =
      TRANSITION_YEARS.map (year_entry_transicao res itens ta) ∧
    (∀ e ∈ calcular_transicao res itens none,
      e.total.icms = 0 ∧ e.total.pisCofins = 0 ∧ e.total.ipi = 0 ∧
        e.total.tributosAnteriores = 0) ∧
    ((calcular_transicao ⟨some []⟩ [] (some taCenario4))[3]?).map
        (fun e => (e.ano, e.total.icms, e.total.pisCofins, e.total.ipi,
          e.total.tributosAnteriores)) = some (2029, 450, 0, 0, 450) := by
  refine ⟨⟨rfl, rfl, rfl, rfl⟩, rfl, ?_, ?_⟩
  · intro e he
    simp only [calcular_transicao, Option.getD] at he
    obtain ⟨cfg', _hcfg', rfl⟩ := List.mem_map.mp he
    refine ⟨?_, ?_, ?_, ?_⟩ <;>
      simp [year_entry_transicao, year_totals, legacy_residuals, v_icms, v_pisCofins,
        v_ipi, emptyTA, round2_zero]
  · simp only [calcular_transicao, TRANSITION_YEARS, List.map, Option.getD, taCenario4,
      year_entry_transicao, year_totals, legacy_residuals, v_icms, v_pisCofins, v_ipi]
    norm_num [round2]

/-- Witness for C4: the 2029 icms residual of the scenario-4 baseline is the
2-decimal rounding of (500 + 0 + 0) × 0.9. -/
theorem claim_C4_witness :
    (year_entry_transicao ⟨some []⟩ [] taCenario4 cfg2029).total.icms =
      round2 ((taCenario4.vICMS.getD 0 + taCenario4.vST.getD 0 + taCenario4.vISS.getD 0) *
        cfg2029.icms_fator) :=
  (claim_C4 ⟨some []⟩ [] taCenario4 cfg2029
    (by rw [TRANSITION_YEARS, cfg2029]
        exact List.mem_cons_of_mem _ (List.mem_cons_of_mem _
          (List.mem_cons_of_mem _ (List.mem_cons_self _ _))))).1.1

/-- The 2026 schedule entry (used to instantiate witnesses). -/
def cfg2026 : YearCfg :=
  ⟨2026, "Fase Piloto", "IVA simbólico (1%) + ICMS + PIS/COFINS + IPI plenos",
    9/1000, 1/1000, false, 1, 1, 1, "api"⟩

/-- **C5**: for every year entry of either orchestrator mode, each
per-instrument total is the 2-decimal-rounded sum of that field over the
entry's lines, the combined new-regime total (iva) is the 2-decimal rounding
of cbs + ibs + is totals computed from those already-rounded totals, the
grand total (geral) is the 2-decimal rounding of iva + legacy total, and with
an empty line list every summed total is 0. -/
theorem claim_C5 (res : ApiResult) (itens : List InvoiceLine)
    (tb : Option TributosAtuais) (outcome : YearCfg → Option ApiResult)
    (e e' : YearEntry)
    (he : e ∈ calcular_transicao res itens tb)
    (he' : e' ∈ calcular_projecao_rtc outcome itens tb) :
    (e.total.cbs = round2 ((e.itens.map (fun i => i.cbs)).sum) ∧
      e.total.ibs = round2 ((e.itens.map (fun i => i.ibs)).sum) ∧
      e.total.vis = round2 ((e.itens.map (fun i => i.vis)).sum) ∧
      e.total.iva = round2 (e.total.cbs + e.total.ibs + e.total.vis) ∧
      e.total.geral = round2 (e.total.iva + e.total.tributosAnteriores)) ∧
    (e'.total.cbs = round2 ((e'.itens.map (fun i => i.cbs)).sum) ∧
      e'.total.ibs = round2 ((e'.itens.map (fun i => i.ibs)).sum) ∧
      e'.total.vis = round2 ((e'.itens.map (fun i => i.vis)).sum) ∧
      e'.total.iva = round2 (e'.total.cbs + e'.total.ibs + e'.total.vis) ∧
      e'.total.geral = round2 (e'.total.iva + e'.total.tributosAnteriores)) ∧
    (∀ e₀ ∈ calcular_transicao ⟨some []⟩ [] tb,
      e₀.total.cbs = 0 ∧ e₀.total.ibs = 0 ∧ e₀.total.vis = 0 ∧ e₀.total.iva = 0) ∧
    (∀ e₀ ∈ calcular_projecao_rtc (fun _ => some ⟨some []⟩) [] tb,
      e₀.total.cbs = 0 ∧ e₀.total.ibs = 0 ∧ e₀.total.vis = 0 ∧ e₀.total.iva = 0) := by
  refine ⟨?_, ?_, ?_, ?_⟩
  · simp only [calcular_transicao] at he
    obtain ⟨cfg, _, rfl⟩ := List.mem_map.mp he
    exact ⟨rfl, rfl, rfl, rfl, rfl⟩
  · simp only [calcular_projecao_rtc] at he'
    obtain ⟨cfg, _, hf⟩ := List.mem_filterMap.mp he'
    obtain ⟨r, _, rfl⟩ := Option.map_eq_some'.mp hf
    exact ⟨rfl, rfl, rfl, rfl, rfl⟩
  · intro e₀ he₀
    simp only [calcular_transicao] at he₀
    obtain ⟨cfg, _, rfl⟩ := List.mem_map.mp he₀
    refine ⟨?_, ?_, ?_, ?_⟩ <;>
      simp [year_entry_transicao, year_totals, round2_zero]
  · intro e₀ he₀
    simp only [calcular_projecao_rtc] at he₀
    obtain ⟨cfg, _, hf⟩ := List.mem_filterMap.mp he₀
    obtain ⟨r, hr, rfl⟩ := Option.map_eq_some'.mp hf
    have : r = ⟨some []⟩ := by
      injection hr.symm
    subst this
    refine ⟨?_, ?_, ?_, ?_⟩ <;>
      simp [year_entry_rtc, extrair_itens_rtc, year_totals, round2_zero]

/-- Witness for C5: the 2026 entry of a projection with no external objects
and no input lines satisfies the iva aggregation identity. -/
theorem claim_C5_witness :
    (year_entry_transicao ⟨some []⟩ [] emptyTA cfg2026).total.iva =
      round2 ((year_entry_transicao ⟨some []⟩ [] emptyTA cfg2026).total.cbs +
        (year_entry_transicao ⟨some []⟩ [] emptyTA cfg2026).total.ibs +
        (year_entry_transicao ⟨some []⟩ [] emptyTA cfg2026).total.vis) :=
  (claim_C5 ⟨some []⟩ [] none (fun _ => some ⟨some []⟩)
    (year_entry_transicao ⟨some []⟩ [] emptyTA cfg2026)
    (year_entry_rtc cfg2026 ⟨some []⟩ [] emptyTA)
    (List.mem_map_of_mem (year_entry_transicao ⟨some []⟩ [] emptyTA)
      (by rw [TRANSITION_YEARS, cfg2026]; exact List.mem_cons_self _ _))
    (List.mem_filterMap.mpr ⟨cfg2026,
      by rw [TRANSITION_YEARS, cfg2026]; exact List.mem_cons_self _ _, rfl⟩)).1.2.2.2.1

/-- The scenario-3 outcome map: the external calls for 2028 and 2031 fail,
every other year succeeds with an empty object list. -/
def outcomeCenario3 : YearCfg → Option ApiResult :=
  fun cfg => if cfg.ano = 2028 ∨ cfg.ano = 2031 then none else some ⟨some []⟩

/-- **C6**: in Mode B every year whose external call failed is silently
omitted, the returned list has exactly one entry per succeeded year, and the
entries follow the static schedule order (ascending year), not completion
order; with exactly 2 of the 8 calls failing, exactly 6 entries are returned
in ascending year order with no placeholder entries. -/
theorem claim_C6 (outcome : YearCfg → Option ApiResult) (itens : List InvoiceLine)
    (tb : Option TributosAtuais) :
    (calcular_projecao_rtc outcome itens tb).map (fun e => e.ano) =
      (TRANSITION_YEARS.filter (fun cfg => (outcome cfg).isSome)).map (fun c => c.ano) ∧
    List.Pairwise (fun a b => a < b)
      ((calcular_projecao_rtc outcome itens tb).map (fun e => e.ano)) ∧
    (calcular_projecao_rtc outcomeCenario3 [] none).length = 6 ∧
    (calcular_projecao_rtc outcomeCenario3 [] none).map (fun e => e.ano) =
      [2026, 2027, 2029, 2030, 2032, 2033] := by
  have h1 : (calcular_projecao_rtc outcome itens tb).map (fun e => e.ano) =
      (TRANSITION_YEARS.filter (fun cfg => (outcome cfg).isSome)).map (fun c => c.ano) :=
    rtc_map_ano outcome itens (tb.getD emptyTA) TRANSITION_YEARS
  refine ⟨h1, ?_, ?_, ?_⟩
  · rw [h1]
    have hsub : List.Sublist
        ((TRANSITION_YEARS.filter (fun cfg => (outcome cfg).isSome)).map (fun c => c.ano))
        (TRANSITION_YEARS.map (fun c => c.ano)) :=
      (TRANSITION_YEARS.filter_sublist).map (fun c => c.ano)
    exact List.Pairwise.sublist hsub (by decide)
  · simp [calcular_projecao_rtc, TRANSITION_YEARS, outcomeCenario3, List.filterMap_cons]
  · simp [calcular_projecao_rtc, TRANSITION_YEARS, outcomeCenario3, List.filterMap_cons,
      year_entry_rtc]

/-- An external live-year result whose single object carries excise 10. -/
def resComIS : ApiResult := ⟨some [⟨some 1, none, none, none, none, none, none, some 10⟩]⟩

/-- **C7 counterexample**: the live-year extractor copies the externally
supplied excise amount, so an external 2026 object with vIS = 10 produces a
2026 entry whose line excise is 10 and whose excise total is 10 — not 0 as
the claim states for every projection. -/
theorem claim_C7_counterexample :
    ((calcular_transicao resComIS [⟨1, "9999", some "x", 100⟩] none).head?).map
        (fun e => (e.ano, e.itens.map (fun r => r.vis), e.total.vis)) =
      some (2026, [10], 10) ∧ (10 : ℚ) ≠ 0 := by
  constructor
  · simp only [calcular_transicao, TRANSITION_YEARS, List.map, Option.getD, emptyTA,
      year_entry_transicao, year_totals, legacy_residuals, v_icms, v_pisCofins, v_ipi,
      extrair_item_2026, resComIS, List.head?_cons]
    norm_num [round2]
  · norm_num

/-- **C7 (amended)**: the engine never computes a 2026 excise locally: in
both modes each 2026 line's excise is the 2-decimal rounding of the
externally supplied excise amount (0 when absent) and Mode A sets its
category info to none; consequently whenever every external object carries a
zero-or-absent excise amount, the 2026 entry has excise 0 on every line and
an excise total of 0, regardless of whether any commodity code matches a
selective-tax category. -/
theorem claim_C7 (res : ApiResult) (itens : List InvoiceLine)
    (tb : Option TributosAtuais) (e : YearEntry)
    (he : e ∈ calcular_transicao res itens tb) (h26 : e.ano = 2026)
    (hz : ∀ o ∈ res.objetos.getD [], o.vIS.getD 0 = 0) :
    (∀ r ∈ e.itens, r.vis = 0) ∧ e.total.vis = 0 ∧
    (∀ r ∈ e.itens, r.isInfo = none) ∧
    (∀ (itens' : List InvoiceLine) (obj : ExtObj),
      (extrair_item_2026 obj itens').vis = round2 (obj.vIS.getD 0)) ∧
    (∀ (itens' : List InvoiceLine) (obj : ExtObj),
      (extrair_item_rtc itens' obj).vis = round2 (obj.vIS.getD 0)) ∧
    (∀ (objs : List ExtObj) (itens' : List InvoiceLine),
      (∀ o ∈ objs, o.vIS.getD 0 = 0) →
        ∀ r ∈ extrair_itens_rtc objs itens', r.vis = 0 ∧ r.isInfo = none) := by
  simp only [calcular_transicao] at he
  obtain ⟨cfg, _, rfl⟩ := List.mem_map.mp he
  have hcfg : cfg.ano = 2026 := h26
  have hit : (year_entry_transicao res itens (tb.getD emptyTA) cfg).itens =
      (res.objetos.getD []).map (fun o => extrair_item_2026 o itens) := by
    simp [year_entry_transicao, hcfg]
  have hvis : ∀ r ∈ (year_entry_transicao res itens (tb.getD emptyTA) cfg).itens,
      r.vis = 0 := by
    rw [hit]
    intro r hr
    obtain ⟨o, ho, rfl⟩ := List.mem_map.mp hr
    have : (extrair_item_2026 o itens).vis = round2 (o.vIS.getD 0) := rfl
    rw [this, hz o ho, round2_zero]
  refine ⟨hvis, ?_, ?_, fun _ _ => rfl, fun _ _ => rfl, ?_⟩
  · have htot : (year_entry_transicao res itens (tb.getD emptyTA) cfg).total.vis =
        round2 (((year_entry_transicao res itens (tb.getD emptyTA) cfg).itens.map
          (fun i => i.vis)).sum) := rfl
    rw [htot, List.sum_eq_zero, round2_zero]
    intro x hx
    obtain ⟨r, hr, rfl⟩ := List.mem_map.mp hx
    exact hvis r hr
  · rw [hit]
    intro r hr
    obtain ⟨o, _, rfl⟩ := List.mem_map.mp hr
    rfl
  · intro objs itens' hz' r hr
    obtain ⟨o, ho, rfl⟩ := List.mem_map.mp hr
    constructor
    · have : (extrair_item_rtc itens' o).vis = round2 (o.vIS.getD 0) := rfl
      rw [this, hz' o ho, round2_zero]
    · simp [extrair_item_rtc, hz' o ho]

/-- An external live-year result whose single object has no excise field. -/
def resSemIS : ApiResult := ⟨some [⟨some 1, none, none, none, none, none, none, none⟩]⟩

/-- Witness for C7: with one external object carrying no excise amount and an
input line whose code 2401 matches the tobacco category, the 2026 excise
total is 0. -/
theorem claim_C7_witness :
    (year_entry_transicao resSemIS [linha2401] emptyTA cfg2026).total.vis = 0 :=
  (claim_C7 resSemIS [linha2401] none
    (year_entry_transicao resSemIS [linha2401] emptyTA cfg2026)
    (List.mem_map_of_mem (year_entry_transicao resSemIS [linha2401] emptyTA)
      (by rw [TRANSITION_YEARS, cfg2026]; exact List.mem_cons_self _ _))
    rfl
    (by intro o ho
        simp only [resSemIS, Option.getD, List.mem_singleton] at ho
        subst ho
        rfl)).2.1

/-- **C8**: in Mode B each returned year's effective rates are the 3-decimal
roundings of (summed instrument total / summed base) × 100, and both are 0
when the summed base is 0 (no division on a zero base). -/
theorem claim_C8 (outcome : YearCfg → Option ApiResult) (itens : List InvoiceLine)
    (tb : Option TributosAtuais) (e : YearEntry)
    (he : e ∈ calcular_projecao_rtc outcome itens tb) :
    ((e.itens.map (fun i => i.baseCalculo)).sum ≠ 0 →
      e.aliqCbs = round3 (e.total.cbs / (e.itens.map (fun i => i.baseCalculo)).sum * 100) ∧
      e.aliqIbs = round3 (e.total.ibs / (e.itens.map (fun i => i.baseCalculo)).sum * 100)) ∧
    ((e.itens.map (fun i => i.baseCalculo)).sum = 0 →
      e.aliqCbs = 0 ∧ e.aliqIbs = 0) := by
  simp only [calcular_projecao_rtc] at he
  obtain ⟨cfg, _, hf⟩ := List.mem_filterMap.mp he
  obtain ⟨r, _, rfl⟩ := Option.map_eq_some'.mp hf
  constructor
  · intro hbc
    have hbc' : (List.map (fun i => i.baseCalculo)
        (extrair_itens_rtc (r.objetos.getD []) itens)).sum ≠ 0 := hbc
    constructor <;> simp [year_entry_rtc, hbc']
  · intro hbc
    have hbc' : (List.map (fun i => i.baseCalculo)
        (extrair_itens_rtc (r.objetos.getD []) itens)).sum = 0 := hbc
    constructor <;> simp [year_entry_rtc, hbc', round3_zero]

/-- Witness for C8: a Mode B year with no external objects has summed base 0
and both effective rates 0. -/
theorem claim_C8_witness :
    (year_entry_rtc cfg2026 ⟨some []⟩ [] emptyTA).aliqCbs = 0 ∧
    (year_entry_rtc cfg2026 ⟨some []⟩ [] emptyTA).aliqIbs = 0 :=
  (claim_C8 (fun _ => some ⟨some []⟩) [] none
    (year_entry_rtc cfg2026 ⟨some []⟩ [] emptyTA)
    (List.mem_filterMap.mpr ⟨cfg2026,
      by rw [TRANSITION_YEARS, cfg2026]; exact List.mem_cons_self _ _, rfl⟩)).2 rfl

/-- **C9**: in both extractors every missing numeric field (base, instrument
amounts, instrument rates, excise) behaves exactly as the field being present
with value 0, and neither extractor raises (both are total functions); an
object with every numeric field absent yields the all-zero line. -/
theorem claim_C9 (itens : List InvoiceLine) (obj : ExtObj) :
    extrair_item_2026 obj itens =
      extrair_item_2026 ⟨obj.nObj, some (obj.vBC.getD 0), some (obj.vIBS.getD 0),
        some (obj.vCBS.getD 0), some (obj.pCBS.getD 0), some (obj.pIBSUF.getD 0),
        some (obj.pIBSMun.getD 0), some (obj.vIS.getD 0)⟩ itens ∧
    extrair_item_rtc itens obj =
      extrair_item_rtc itens ⟨obj.nObj, some (obj.vBC.getD 0), some (obj.vIBS.getD 0),
        some (obj.vCBS.getD 0), some (obj.pCBS.getD 0), some (obj.pIBSUF.getD 0),
        some (obj.pIBSMun.getD 0), some (obj.vIS.getD 0)⟩ ∧
    extrair_item_2026 ⟨some 1, none, none, none, none, none, none, none⟩ [] =
      ⟨1, "", "Item 1", 0, 0, 0, 0, none, 0, 0, 0⟩ ∧
    extrair_item_rtc [] ⟨some 1, none, none, none, none, none, none, none⟩ =
      ⟨1, "", "Item 1", 0, 0, 0, 0, none, 0, 0, 0⟩ := by
  refine ⟨rfl, rfl, ?_, ?_⟩
  · simp only [extrair_item_2026, Option.getD, List.find?]
    simp [round2_zero]
    rfl
  · simp only [extrair_item_rtc, inp_by_num, Option.getD, List.find?]
    simp [round2_zero]
    rfl

/-- **C10**: in the Mode B extractor the matched category info equals the
classifier's result on the enriched commodity code exactly when the external
excise amount is strictly positive; when it is 0 (or absent, hence 0) the
info is none even if the code matches a category. -/
theorem claim_C10 (itens : List InvoiceLine) (obj : ExtObj) (objs : List ExtObj) :
    (0 < obj.vIS.getD 0 →
      (extrair_item_rtc itens obj).isInfo =
        detectar_is (extrair_item_rtc itens obj).ncm) ∧
    (obj.vIS.getD 0 ≤ 0 → (extrair_item_rtc itens obj).isInfo = none) ∧
    extrair_itens_rtc objs itens = objs.map (extrair_item_rtc itens) := by
  refine ⟨?_, ?_, rfl⟩
  · intro h
    simp [extrair_item_rtc, h]
  · intro h
    simp [extrair_item_rtc, not_lt.mpr h]

/-- An external object whose excise amount is exactly 0. -/
def objSemIS : ExtObj := ⟨some 1, some 100, some 1, some 9, none, none, none, some 0⟩

/-- Witness for C10: with external excise 0 and an enriched code 2401 that
does match the tobacco category, the produced info is still none. -/
theorem claim_C10_witness :
    (extrair_item_rtc [linha2401] objSemIS).isInfo = none ∧
    detectar_is "2401" ≠ none :=
  ⟨(claim_C10 [linha2401] objSemIS []).2.1 (le_refl 0),
    fun hcon => Option.noConfusion hcon⟩

end Reforma
